import Mathlib

set_option maxRecDepth 8000

/-!
Verification development for the two command-line assistants implemented in
hello_lg2.py: an arithmetic router (variant 1) and a Siebel product-model
dispatcher with a missing-field repair loop (variant 2).  Python strings are
modelled by Lean String, Python ints by Nat/Int, Python dicts by ordered
association lists with in-place update, and the nondeterministic uuid4 supply
by an explicit mint function applied to a running counter.
-/

/-! String helpers modelling the Python str operations used by the source.
They are written over the underlying character lists so that every definition
reduces by ordinary kernel computation. -/

/-- Model of str.upper; Char.toUpper matches Python on ASCII input. -/
def pyUpper (s : String) : String := String.mk (s.data.map Char.toUpper)

/-- Model of str.lower; Char.toLower matches Python on ASCII input. -/
def pyLower (s : String) : String := String.mk (s.data.map Char.toLower)

/-- ASCII whitespace stripped by str.strip. -/
def wsChar (c : Char) : Bool :=
  c == ' ' || c == '\t' || c == '\n' || c == '\r' || c == '\x0b' || c == '\x0c'

/-- Model of str.strip with no argument: remove leading and trailing whitespace. -/
def pyStrip (s : String) : String :=
  String.mk (((s.data.dropWhile wsChar).reverse.dropWhile wsChar).reverse)

/-- Does the first list start with the second one? Model of str.startswith. -/
def listStartsWith : List Char → List Char → Bool
  | _, [] => true
  | [], _ :: _ => false
  | c :: cs, p :: ps => c == p && listStartsWith cs ps

/-- Model of str.startswith. -/
def pyStartsWith (s pre : String) : Bool := listStartsWith s.data pre.data

/-- Replace every non-overlapping occurrence of pat by rep, scanning left to
right; fuel bounds the recursion and is instantiated with the input length,
which suffices because every step consumes at least one character. -/
def replaceAux (pat rep : List Char) : Nat → List Char → List Char
  | 0, s => s
  | _ + 1, [] => []
  | fuel + 1, c :: cs =>
      if listStartsWith (c :: cs) pat then
        rep ++ replaceAux pat rep fuel ((c :: cs).drop pat.length)
      else
        c :: replaceAux pat rep fuel cs

/-- Model of str.replace (all occurrences, left to right). -/
def pyReplace (s pat rep : String) : String :=
  String.mk (replaceAux pat.data rep.data s.data.length s.data)

/-- Splitting on a one-character separator; model of str.split for the
one-character separators used by the source. -/
def splitAux (sep : Char) : List Char → List Char → List String
  | [], acc => [String.mk acc.reverse]
  | c :: cs, acc =>
      if c == sep then String.mk acc.reverse :: splitAux sep cs []
      else splitAux sep cs (c :: acc)

/-- Model of str.split with a one-character separator. -/
def pySplit (s : String) (sep : Char) : List String := splitAux sep s.data []

/-- Model of sep.join(results). -/
def joinWith (sep : String) : List String → String
  | [] => ""
  | [x] => x
  | x :: y :: xs => x ++ sep ++ joinWith sep (y :: xs)

namespace V1

/-- ASCII reading of the regex word-character class used by the boundary
assertion in the pattern matching token-bounded digit runs. -/
def wordChar (c : Char) : Bool := c.isAlpha || c.isDigit || c == '_'

/-- Scanner for the regex findall of token-bounded unsigned digit runs: it
collects each maximal run of decimal digits whose neighbouring characters,
when present, are not word characters.  The Bool argument records whether the
character just before the current position is a word character; the Option
argument holds the digits of the run being read, reversed, together with its
left-boundary flag. -/
def runsAux : List Char → Bool → Option (List Char × Bool) → List (List Char)
  | [], _, none => []
  | [], _, some (run, leftOk) => if leftOk then [run.reverse] else []
  | c :: cs, prevW, none =>
      if c.isDigit then runsAux cs true (some ([c], !prevW))
      else runsAux cs (wordChar c) none
  | c :: cs, _, some (run, leftOk) =>
      if c.isDigit then runsAux cs true (some (c :: run, leftOk))
      else
        (if leftOk && !(wordChar c) then [run.reverse] else []) ++
          runsAux cs (wordChar c) none

/-- Numeric value of a run of decimal digits. -/
def digitsVal (run : List Char) : Nat :=
  run.foldl (fun acc c => acc * 10 + (c.toNat - 48)) 0

/-- Model of re.findall for token-bounded unsigned digit runs followed by int
conversion of every match. -/
def findNums (text : String) : List Nat :=
  (runsAux text.data false none).map digitsVal

/-- Tool add_two_numbers: add the first two numbers found in the text. -/
def add_two_numbers (text : String) : String :=
  match findNums text with
  | a :: b :: _ =>
      "The sum of " ++ toString a ++ " and " ++ toString b ++ " is " ++
        toString (a + b) ++ "."
  | _ => "I couldn\x27t find two numbers to add."

/-- Tool subtract_two_numbers: subtract the second number found from the
first one; Python ints may go negative, hence the Int subtraction. -/
def subtract_two_numbers (text : String) : String :=
  match findNums text with
  | a :: b :: _ =>
      "The difference when subtracting " ++ toString b ++ " from " ++
        toString a ++ " is " ++ toString (Int.ofNat a - Int.ofNat b) ++ "."
  | _ => "I couldn\x27t find two numbers to subtract."

/-- Tool multiply_two_numbers: multiply the first two numbers found. -/
def multiply_two_numbers (text : String) : String :=
  match findNums text with
  | a :: b :: _ =>
      "The product of " ++ toString a ++ " and " ++ toString b ++ " is " ++
        toString (a * b) ++ "."
  | _ => "I couldn\x27t find two numbers to multiply."

/-- Conditional-branching function decide of the variant-1 graph: maps the
stored model response to the name of the next node. -/
def decide (resp : String) : String :=
  if pyStartsWith resp "ADD" then "add_tool"
  else if pyStartsWith resp "SUBTRACT" then "subtract_tool"
  else if pyStartsWith resp "MULTIPLY" then "multiply_tool"
  else "echo"

/-- The interpret node strips and upper-cases the raw model output before it
is stored as llm_response. -/
def interpretLabel (raw : String) : String := pyUpper (pyStrip raw)

/-- Routing of a raw model output through interpret then decide. -/
def route (raw : String) : String := decide (interpretLabel raw)

end V1

namespace V2

/-- Action record produced by the variant-2 classifier; every field that a
dict .get call defaults to the empty string is a String field defaulting to
the empty string. -/
structure Action where
  type : String := ""
  name : String := ""
  product : String := ""
  price : String := ""
  currency : String := ""
deriving DecidableEq

/-- Python dict assignment on the session table: replace the value at the
first occurrence of the key, else append the new pair at the end.  This
mirrors dict insertion-order semantics. -/
def dictInsert : List (String × String) → String → String → List (String × String)
  | [], k, v => [(k, v)]
  | p :: rest, k, v =>
      if p.1 = k then (k, v) :: rest else p :: dictInsert rest k v

/-- Python dict.get with a default value. -/
def dictGet (d : List (String × String)) (k dflt : String) : String :=
  ((d.find? (fun q => q.1 == k)).map (fun q => q.2)).getD dflt

/-- Result of the create_product tool: either the missing-fields sentinel
string or the dict holding the freshly minted ProductId and the name. -/
inductive ProdResult where
  | missing (msg : String)
  | created (productId : String) (nm : String)
deriving DecidableEq

/-- Tool create_product: reject an empty name with the sentinel, otherwise
return the dict with a freshly minted identifier.  The uuid4 call is modelled
by the freshId argument supplied by the dispatcher from the mint stream. -/
def create_product (name : String) (freshId : String) : ProdResult :=
  if name = "" then .missing "MISSING_FIELDS:Product Name"
  else .created freshId name

/-- json.dumps with indent 2 of the dict returned by create_product.  String
escaping is elided: every argument in this development contains no character
that json.dumps would escape. -/
def productDictJson (pid nm : String) : String :=
  "\x7b\n  \"ProductId\": \"" ++ pid ++ "\",\n  \"name\": \"" ++ nm ++ "\"\n\x7d"

/-- json.dumps with indent 2 of the price-list payload built by
create_pricelist, under the same no-escaping convention. -/
def pricelistJson (plname pid price currency : String) : String :=
  "\x7b\n  \"SWIISSPriceListItemIO\": \x7b\n    \"PriceListId\": \"" ++ plname ++
    "\",\n    \"ProductId\": \"" ++ pid ++ "\",\n    \"Price\": \"" ++ price ++
    "\",\n    \"Currency\": \"" ++ currency ++ "\"\n  \x7d\n\x7d"

/-- Human-readable names of the empty required fields of a price-list action,
collected in the order the source checks them. -/
def missingNames (name product price currency : String) : List String :=
  (if name = "" then ["Price List Name"] else []) ++
    (if product = "" then ["Product"] else []) ++
      (if price = "" then ["Price"] else []) ++
        (if currency = "" then ["Currency Code"] else [])

/-- product_ids.get(product, product) if product_ids else product: resolve a
product name through the session table, falling back to the raw name when the
table is empty or the name is absent. -/
def resolveProduct (product_ids : List (String × String)) (product : String) :
    String :=
  if product_ids = [] then product else dictGet product_ids product product

/-- Tool create_pricelist: either the sentinel listing the empty required
fields, or the simulated REST payload with the product name resolved through
the session table. -/
def create_pricelist (name product price currency : String)
    (product_ids : List (String × String)) : String :=
  if missingNames name product price currency ≠ [] then
    "MISSING_FIELDS:" ++ joinWith "," (missingNames name product price currency)
  else
    "Sample REST request for Siebel price list item:\n" ++
      pricelistJson name (resolveProduct product_ids product) price currency

/-- Tool create_promotion. -/
def create_promotion (name : String) : String :=
  if name = "" then "MISSING_FIELDS:Promotion Name"
  else "Created promotion: " ++ name

/-- Tool create_product_class. -/
def create_product_class (name : String) : String :=
  if name = "" then "MISSING_FIELDS:Product Class Name"
  else "Created product class: " ++ name

/-- Tool create_product_line. -/
def create_product_line (name : String) : String :=
  if name = "" then "MISSING_FIELDS:Product Line Name"
  else "Created product line: " ++ name

/-- Tool create_product_attributes. -/
def create_product_attributes (name : String) : String :=
  if name = "" then "MISSING_FIELDS:Product Attributes Name"
  else "Created product attributes: " ++ name

/-- Tool create_product_eligibility. -/
def create_product_eligibility (name : String) : String :=
  if name = "" then "MISSING_FIELDS:Product Eligibility Name"
  else "Created product eligibility for: " ++ name

/-- Tool create_product_compatibility. -/
def create_product_compatibility (name : String) : String :=
  if name = "" then "MISSING_FIELDS:Product Compatibility Name"
  else "Created product compatibility for: " ++ name

/-- The tool_map entries whose tools take only the name and return a string.
CREATEPRODUCT is a tool_map entry too, but the dispatcher treats its dict
result specially, so it is handled by a dedicated branch of dispatchOne. -/
def toolMapLookup (ty : String) : Option (String → String) :=
  if ty = "CREATEPROMOTION" then some create_promotion
  else if ty = "CREATEPRODUCTCLASS" then some create_product_class
  else if ty = "CREATEPRODUCTLINE" then some create_product_line
  else if ty = "CREATEPRODUCTATTRIBUTES" then some create_product_attributes
  else if ty = "CREATEPRODUCTELIGIBILITY" then some create_product_eligibility
  else if ty = "CREATEPRODUCTCOMPATIBILITY" then some create_product_compatibility
  else none

/-- All action types the dispatcher recognises. -/
def knownActionTypes : List String :=
  ["CREATEPRICELIST", "CREATEPRODUCT", "CREATEPROMOTION", "CREATEPRODUCTCLASS",
   "CREATEPRODUCTLINE", "CREATEPRODUCTATTRIBUTES", "CREATEPRODUCTELIGIBILITY",
   "CREATEPRODUCTCOMPATIBILITY"]

/-- The state the dispatcher threads through a batch: the session table and
the position in the mint stream standing for the uuid4 supply. -/
structure DState where
  product_ids : List (String × String)
  counter : Nat
deriving DecidableEq

/-- One iteration of the dispatcher loop body: run the action against the
current state, producing the next state and the result string for this
action.  On a successful CREATEPRODUCT the minted identifier is written into
the table under the action name before the pair is returned; on an unknown
type the inline unknown-action message is produced. -/
def dispatchOne (mint : Nat → String) (st : DState) (a : Action) :
    DState × String :=
  if pyUpper a.type = "CREATEPRICELIST" then
    (st, create_pricelist a.name a.product a.price a.currency st.product_ids)
  else if pyUpper a.type = "CREATEPRODUCT" then
    match create_product a.name (mint st.counter) with
    | .missing msg => (st, msg)
    | .created pid nm =>
        (⟨dictInsert st.product_ids a.name pid, st.counter + 1⟩,
         productDictJson pid nm)
  else
    match toolMapLookup (pyUpper a.type) with
    | some f => (st, f a.name)
    | none => (st, "Unknown action: " ++ pyUpper a.type)

/-- The dispatcher loop over the action list, threading the state from each
action into the next and collecting the result strings in order. -/
def dispatchActions (mint : Nat → String) :
    List Action → DState → DState × List String
  | [], st => (st, [])
  | a :: rest, st =>
      ((dispatchActions mint rest (dispatchOne mint st a).1).1,
       (dispatchOne mint st a).2 ::
         (dispatchActions mint rest (dispatchOne mint st a).1).2)

/-- The dispatcher node: initialise the table when the state has none, run
the batch, fall back to the echo line when no action produced a result, and
join the results with newlines. -/
def dispatcher (mint : Nat → String) (userInput : String)
    (pidsOpt : Option (List (String × String))) (ctr : Nat)
    (actions : List Action) : DState × String :=
  match dispatchActions mint actions ⟨pidsOpt.getD [], ctr⟩ with
  | (st, results) =>
      (st, joinWith "\n"
        (if results = [] then ["You said: " ++ userInput] else results))

/-- Values of the JSON data model, standing for the Python objects returned
by json.loads: None, booleans, numbers, strings, lists and dicts. -/
inductive JValue where
  | null
  | jbool (b : Bool)
  | num (n : Int)
  | str (s : String)
  | arr (elems : List JValue)
  | obj (fields : List (String × JValue))

/-- dict.get with a default on a parsed JSON object. -/
def jGet (kvs : List (String × JValue)) (k : String) (dflt : JValue) : JValue :=
  ((kvs.find? (fun p => p.1 == k)).map (fun p => p.2)).getD dflt

/-- The interpret node of variant 2 after the model call: the json.loads
outcome, with a parse failure replaced by the object holding an empty actions
list. -/
def interpretData (parsed : Option JValue) : JValue :=
  parsed.getD (.obj [("actions", .arr [])])

/-- The dispatcher reads state.get of llm_response and then calls .get of
actions on it, and iterates the value in a for loop.  Calling .get on
anything but a dict raises AttributeError; iterating a dict yields its keys,
iterating a string yields its characters, and iterating a number, boolean or
None raises TypeError. -/
def getActions (data : JValue) : Except String (List JValue) :=
  match data with
  | .obj kvs =>
      match jGet kvs "actions" (.arr []) with
      | .arr l => .ok l
      | .obj kvs2 => .ok (kvs2.map (fun p => .str p.1))
      | .str s => .ok (s.data.map (fun c => .str (String.mk [c])))
      | .null => .error "TypeError: object is not iterable"
      | .jbool _ => .error "TypeError: object is not iterable"
      | .num _ => .error "TypeError: object is not iterable"
  | _ => .error "AttributeError: no attribute get"

/-- The session dict of the variant-2 CLI loop: the current user input, the
product table once the dispatcher has created it, and every other key the
loop has stored, in particular the normalized missing-field answers. -/
structure Session where
  user_input : String := ""
  product_ids : Option (List (String × String)) := none
  extra : List (String × String) := []
deriving DecidableEq

/-- field.lower().replace of spaces by underscores: the normalized key under
which a missing-field answer is stored. -/
def normKey (f : String) : String := pyReplace (pyLower f) " " "_"

/-- The for loop of the repair branch: prompt once per listed field, consuming
one answer from the answer stream per prompt, and store it in the session
under the normalized key. -/
def storeFields : Session → List String → List String → Session × List String
  | s, [], answers => (s, answers)
  | s, f :: fs, answers =>
      storeFields
        { s with extra := dictInsert s.extra (normKey f) (answers.headD "") }
        fs answers.tail

/-- Modelled from the spec: graph.invoke is the LangGraph wiring, outside
this repository, that runs interpret and then the dispatcher as a linear
pipeline and threads the session state through them, so the table the
dispatcher updates in place persists in the session.  The classifier response
for this invocation is supplied already parsed as an action list; the mint
stream position is threaded alongside. -/
def invokeTyped (mint : Nat → String) (acts : List Action) (s : Session)
    (ctr : Nat) : Session × Nat × String :=
  match dispatcher mint s.user_input s.product_ids ctr acts with
  | (st, res) => ({ s with product_ids := some st.product_ids }, st.counter, res)

/-- The inner while loop of the variant-2 CLI: invoke the graph, and while the
result carries the missing-fields sentinel, strip the sentinel, split the
field list on commas, store one prompted answer per field, and re-invoke.
The oracle list supplies one classifier response per invocation and the
answers list one console answer per prompt; the fuel bounds the number of
invocations inspected and none means the loop was still running. -/
def innerLoop (mint : Nat → String) :
    Nat → List (List Action) → List String → Session → Nat →
      Option (String × Session × Nat)
  | 0, _, _, _, _ => none
  | _ + 1, [], _, _, _ => none
  | fuel + 1, acts :: oracle, answers, s, ctr =>
      match invokeTyped mint acts s ctr with
      | (s1, ctr1, res) =>
          if pyStartsWith res "MISSING_FIELDS:" then
            match storeFields s1
                (pySplit (pyReplace res "MISSING_FIELDS:" "") ',') answers with
            | (s2, answers2) => innerLoop mint fuel oracle answers2 s2 ctr1
          else some (res, s1, ctr1)

/-- A CREATEPRODUCT action for the given name. -/
def mkProduct (n : String) : Action := { type := "CREATEPRODUCT", name := n }

/-- A CREATEPRICELIST action with the given fields. -/
def mkPricelist (nm pr price cur : String) : Action :=
  { type := "CREATEPRICELIST", name := nm, product := pr, price := price,
    currency := cur }

/-- A concrete deterministic mint stream standing in for uuid4. -/
def mintC : Nat → String := fun i => "ID-" ++ toString i

/-- A price-list action whose currency field is empty. -/
def plMissingCurrency : Action := mkPricelist "NA pricelist" "Widget" "1000" ""

/-- A session at the start of a turn asking for that price list. -/
def s0 : Session := { user_input := "create NA pricelist for Widget at 1000" }

/-- One turn of the outer CLI loop as the environment drives it: the user
text typed at the prompt, the classifier responses consumed by the
invocations of that turn, and the console answers consumed by its
missing-field prompts. -/
structure TurnInput where
  user : String
  oracle : List (List Action)
  answers : List String

/-- The outer while loop of the variant-2 CLI over a list of turns: the one
session dict persists for the life of the process, each turn stores its user
text into it and runs the inner loop on it, and the next turn starts from the
session the previous turn left behind.  A turn whose inner loop is still
looping after the fuel, or whose oracle is exhausted, blocks the process, so
the run reaches no final session: none. -/
def sessionRun (mint : Nat → String) (fuel : Nat) :
    List TurnInput → Session → Nat → Option (Session × Nat)
  | [], s, ctr => some (s, ctr)
  | t :: turns, s, ctr =>
      match innerLoop mint fuel t.oracle t.answers
          { s with user_input := t.user } ctr with
      | some (_, s1, ctr1) => sessionRun mint fuel turns s1 ctr1
      | none => none

/-- A concrete first turn: create the product Widget. -/
def turnCreateWidget : TurnInput :=
  { user := "create product Widget", oracle := [[mkProduct "Widget"]],
    answers := [] }

/-- A concrete second turn: no action found, the echo path. -/
def turnEcho : TurnInput :=
  { user := "hello", oracle := [[]], answers := [] }

end V2

/-! Claim theorems: variant 1. -/

/-- Claim C3: every arithmetic handler computes with exactly the first two
integers found in the text, in left-to-right order, and ignores all later
numbers; on the example sentence the sum handler names 3, 5 and 8 and its
result is exactly that sentence, which never mentions 10. -/
theorem c3_first_two_numbers :
    (∀ text a b rest, V1.findNums text = a :: b :: rest →
        V1.add_two_numbers text =
          "The sum of " ++ toString a ++ " and " ++ toString b ++ " is " ++
            toString (a + b) ++ "." ∧
        V1.subtract_two_numbers text =
          "The difference when subtracting " ++ toString b ++ " from " ++
            toString a ++ " is " ++ toString (Int.ofNat a - Int.ofNat b) ++ "." ∧
        V1.multiply_two_numbers text =
          "The product of " ++ toString a ++ " and " ++ toString b ++ " is " ++
            toString (a * b) ++ ".")
    ∧ V1.findNums "add 3 apples and 5 oranges and 10 bananas" = [3, 5, 10]
    ∧ V1.add_two_numbers "add 3 apples and 5 oranges and 10 bananas" =
        "The sum of 3 and 5 is 8." := by
  refine ⟨fun text a b rest h => ?_, by decide, by decide⟩
  refine ⟨?_, ?_, ?_⟩ <;>
    simp [V1.add_two_numbers, V1.subtract_two_numbers, V1.multiply_two_numbers, h]

/-- Claim C3 witness: the general part applied to the example sentence. -/
theorem c3_first_two_numbers_witness :
    V1.add_two_numbers "add 3 apples and 5 oranges and 10 bananas" =
        "The sum of " ++ toString 3 ++ " and " ++ toString 5 ++ " is " ++
          toString (3 + 5) ++ "." :=
  (c3_first_two_numbers.1 "add 3 apples and 5 oranges and 10 bananas"
    3 5 [10] (by decide)).1

/-- Claim C4: on text with fewer than two integers every arithmetic handler
returns its fixed fallback sentence; being total Lean functions they raise no
error. -/
theorem c4_fallback (text : String)
    (h : (V1.findNums text).length < 2) :
    V1.add_two_numbers text = "I couldn\x27t find two numbers to add." ∧
    V1.subtract_two_numbers text = "I couldn\x27t find two numbers to subtract." ∧
    V1.multiply_two_numbers text = "I couldn\x27t find two numbers to multiply." := by
  rcases hfn : V1.findNums text with _ | ⟨a, _ | ⟨b, rest⟩⟩
  · refine ⟨?_, ?_, ?_⟩ <;>
      simp [V1.add_two_numbers, V1.subtract_two_numbers,
        V1.multiply_two_numbers, hfn]
  · refine ⟨?_, ?_, ?_⟩ <;>
      simp [V1.add_two_numbers, V1.subtract_two_numbers,
        V1.multiply_two_numbers, hfn]
  · rw [hfn] at h
    simp at h
    omega

/-- Claim C4 witness: the fallback on a sentence with a single number. -/
theorem c4_fallback_witness :
    (V1.findNums "only 7 here").length < 2 ∧
      V1.add_two_numbers "only 7 here" =
        "I couldn\x27t find two numbers to add." :=
  ⟨by decide, (c4_fallback "only 7 here" (by decide)).1⟩

/-- Claim C6: the variant-1 router is total on the stripped upper-cased model
output: the three arithmetic prefixes select their handlers in order, every
other string selects echo, and every input yields one of the four node
names. -/
theorem c6_router_total (raw : String) :
    (V1.route raw = "add_tool" ∨ V1.route raw = "subtract_tool" ∨
      V1.route raw = "multiply_tool" ∨ V1.route raw = "echo")
    ∧ (pyStartsWith (V1.interpretLabel raw) "ADD" = true →
        V1.route raw = "add_tool")
    ∧ (pyStartsWith (V1.interpretLabel raw) "ADD" = false →
        pyStartsWith (V1.interpretLabel raw) "SUBTRACT" = true →
        V1.route raw = "subtract_tool")
    ∧ (pyStartsWith (V1.interpretLabel raw) "ADD" = false →
        pyStartsWith (V1.interpretLabel raw) "SUBTRACT" = false →
        pyStartsWith (V1.interpretLabel raw) "MULTIPLY" = true →
        V1.route raw = "multiply_tool")
    ∧ (pyStartsWith (V1.interpretLabel raw) "ADD" = false →
        pyStartsWith (V1.interpretLabel raw) "SUBTRACT" = false →
        pyStartsWith (V1.interpretLabel raw) "MULTIPLY" = false →
        V1.route raw = "echo") := by
  unfold V1.route V1.decide
  rcases h1 : pyStartsWith (V1.interpretLabel raw) "ADD" <;>
    rcases h2 : pyStartsWith (V1.interpretLabel raw) "SUBTRACT" <;>
      rcases h3 : pyStartsWith (V1.interpretLabel raw) "MULTIPLY" <;>
        simp [h1, h2, h3]

/-- Claim C6 witness: a model output selecting the subtract handler. -/
theorem c6_router_total_witness :
    V1.route " subtract them " = "subtract_tool" :=
  (c6_router_total " subtract them ").2.2.1 (by decide) (by decide)

/-! Helper lemmas about the session table and the dispatcher. -/

namespace V2

lemma dictInsert_ne_nil (d : List (String × String)) (k v : String) :
    dictInsert d k v ≠ [] := by
  cases d with
  | nil => simp [dictInsert]
  | cons p rest =>
      unfold dictInsert
      split <;> simp

lemma find_dictInsert (d : List (String × String)) (k v : String) :
    (dictInsert d k v).find? (fun q => q.1 == k) = some (k, v) := by
  induction d with
  | nil => simp [dictInsert]
  | cons p rest ih =>
      unfold dictInsert
      by_cases h : p.1 = k
      · simp [h, List.find?]
      · simp only [if_neg h, List.find?]
        have hb : (p.1 == k) = false := by simpa using h
        rw [hb, ih]

lemma resolveProduct_dictInsert_self (d : List (String × String))
    (k v : String) : resolveProduct (dictInsert d k v) k = v := by
  unfold resolveProduct
  rw [if_neg (dictInsert_ne_nil d k v)]
  unfold dictGet
  rw [find_dictInsert]
  rfl

lemma mem_dictInsert {q : String × String} {d : List (String × String)}
    {k v : String} (h : q ∈ dictInsert d k v) : q ∈ d ∨ q = (k, v) := by
  induction d with
  | nil => simp [dictInsert] at h; simp [h]
  | cons p rest ih =>
      unfold dictInsert at h
      by_cases hp : p.1 = k
      · rw [if_pos hp] at h
        rcases List.mem_cons.mp h with h1 | h1
        · right; exact h1
        · left; exact List.mem_cons_of_mem p h1
      · rw [if_neg hp] at h
        rcases List.mem_cons.mp h with h1 | h1
        · left; simp [h1]
        · rcases ih h1 with h2 | h2
          · left; exact List.mem_cons_of_mem p h2
          · right; exact h2

lemma keys_dictInsert {d : List (String × String)} {k0 : String}
    (k v : String) (h : ∃ q ∈ d, q.1 = k0) :
    ∃ q ∈ dictInsert d k v, q.1 = k0 := by
  induction d with
  | nil => simp at h
  | cons p rest ih =>
      rcases h with ⟨q, hq, hk⟩
      unfold dictInsert
      by_cases hp : p.1 = k
      · rw [if_pos hp]
        rcases List.mem_cons.mp hq with rfl | hmem
        · exact ⟨(k, v), List.mem_cons_self _ _, by rw [← hk, hp]⟩
        · exact ⟨q, List.mem_cons_of_mem _ hmem, hk⟩
      · rw [if_neg hp]
        rcases List.mem_cons.mp hq with rfl | hmem
        · exact ⟨q, List.mem_cons_self _ _, hk⟩
        · rcases ih ⟨q, hmem, hk⟩ with ⟨q2, hq2, hk2⟩
          exact ⟨q2, List.mem_cons_of_mem _ hq2, hk2⟩

lemma pyUpper_createproduct : pyUpper "CREATEPRODUCT" = "CREATEPRODUCT" := by
  decide

lemma pyUpper_createpricelist :
    pyUpper "CREATEPRICELIST" = "CREATEPRICELIST" := by decide

lemma dispatchOne_product (mint : Nat → String) (st : DState) (n : String) :
    dispatchOne mint st (mkProduct n) =
      if n = "" then (st, "MISSING_FIELDS:Product Name")
      else (⟨dictInsert st.product_ids n (mint st.counter), st.counter + 1⟩,
            productDictJson (mint st.counter) n) := by
  by_cases hn : n = ""
  · subst hn; rfl
  · rw [if_neg hn]
    unfold dispatchOne mkProduct create_product
    rw [pyUpper_createproduct]
    simp [hn]

lemma dispatchOne_pricelist (mint : Nat → String) (st : DState)
    (nm pr price cur : String) :
    dispatchOne mint st (mkPricelist nm pr price cur) =
      (st, create_pricelist nm pr price cur st.product_ids) := by
  unfold dispatchOne mkPricelist
  rw [pyUpper_createpricelist]
  simp

lemma create_pricelist_complete (nm pr price cur : String)
    (pids : List (String × String)) (h1 : nm ≠ "") (h2 : pr ≠ "")
    (h3 : price ≠ "") (h4 : cur ≠ "") :
    create_pricelist nm pr price cur pids =
      "Sample REST request for Siebel price list item:\n" ++
        pricelistJson nm (resolveProduct pids pr) price cur := by
  unfold create_pricelist
  simp [missingNames, h1, h2, h3, h4]

end V2

/-! Claim theorems: variant 2. -/

/-- Claim C5: a price-list action with non-empty name, product and price but
empty currency yields exactly the sentinel listing only Currency Code, and in
general the sentinel lists exactly the human-readable names of the empty
required fields, comma separated. -/
theorem c5_missing_currency :
    (∀ (nm pr price : String) (pids : List (String × String)),
       nm ≠ "" → pr ≠ "" → price ≠ "" →
       V2.create_pricelist nm pr price "" pids = "MISSING_FIELDS:Currency Code")
    ∧ (∀ (nm pr price cur : String) (pids : List (String × String)),
       V2.missingNames nm pr price cur ≠ [] →
       V2.create_pricelist nm pr price cur pids =
         "MISSING_FIELDS:" ++ joinWith "," (V2.missingNames nm pr price cur)) := by
  constructor
  · intro nm pr price pids h1 h2 h3
    unfold V2.create_pricelist
    have hm : V2.missingNames nm pr price "" = ["Currency Code"] := by
      simp [V2.missingNames, h1, h2, h3]
    rw [hm]
    simp [joinWith]
  · intro nm pr price cur pids h
    unfold V2.create_pricelist
    rw [if_pos h]

/-- Claim C5 witness: a concrete price-list action missing only the
currency. -/
theorem c5_missing_currency_witness :
    V2.create_pricelist "NA pricelist" "Widget" "1000" "" [] =
      "MISSING_FIELDS:Currency Code" :=
  c5_missing_currency.1 "NA pricelist" "Widget" "1000" [] (by decide)
    (by decide) (by decide)

/-- Claim C1: in a variant-2 batch a successful CREATEPRODUCT writes its
name-to-identifier pair into the table before the remaining actions run, so a
later CREATEPRICELIST referencing that name builds its payload from the
identifier minted at creation; the raw given name is used only when it is
absent from the table. -/
theorem c1_batch_resolution :
    (∀ (mint : Nat → String) (pids : List (String × String)) (ctr : Nat)
       (n plname price cur : String) (rest : List V2.Action),
       n ≠ "" → plname ≠ "" → price ≠ "" → cur ≠ "" →
       (V2.dispatchActions mint
           (V2.mkProduct n :: V2.mkPricelist plname n price cur :: rest)
           ⟨pids, ctr⟩).2 =
         V2.productDictJson (mint ctr) n ::
           ("Sample REST request for Siebel price list item:\n" ++
             V2.pricelistJson plname (mint ctr) price cur) ::
           (V2.dispatchActions mint rest
             ⟨V2.dictInsert pids n (mint ctr), ctr + 1⟩).2)
    ∧ (∀ (d : List (String × String)) (p : String),
       (∀ q ∈ d, q.1 ≠ p) → V2.resolveProduct d p = p) := by
  constructor
  · intro mint pids ctr n plname price cur rest hn hpl hpr hc
    rw [V2.dispatchActions, V2.dispatchActions, V2.dispatchOne_product,
      if_neg hn, V2.dispatchOne_pricelist]
    dsimp only
    rw [V2.create_pricelist_complete plname n price cur _ hpl hn hpr hc,
      V2.resolveProduct_dictInsert_self]
  · intro d p h
    unfold V2.resolveProduct
    by_cases hd : d = []
    · rw [if_pos hd]
    · rw [if_neg hd]
      unfold V2.dictGet
      have : d.find? (fun q => q.1 == p) = none := by
        rw [List.find?_eq_none]
        intro q hq
        simpa using h q hq
      rw [this]
      rfl

/-- Claim C1 witness: the concrete Widget batch, with the table lookup
falling back on a name absent from the table. -/
theorem c1_batch_resolution_witness :
    (V2.dispatchActions V2.mintC
        (V2.mkProduct "Widget" ::
          V2.mkPricelist "NA" "Widget" "1000" "USD" :: []) ⟨[], 0⟩).2 =
      V2.productDictJson "ID-0" "Widget" ::
        ("Sample REST request for Siebel price list item:\n" ++
          V2.pricelistJson "NA" "ID-0" "1000" "USD") :: [] ∧
    V2.resolveProduct [("Gadget", "ID-9")] "Widget" = "Widget" := by
  constructor
  · have h := c1_batch_resolution.1 V2.mintC [] 0 "Widget" "NA" "1000" "USD" []
      (by decide) (by decide) (by decide) (by decide)
    simpa [V2.dispatchActions, V2.mintC] using h
  · exact c1_batch_resolution.2 [("Gadget", "ID-9")] "Widget" (by decide)

/-- Claim C7: an action whose upper-cased type is none of the known types
yields the inline unknown-action message, leaves the state untouched, and the
batch continues with the remaining actions exactly as if dispatched from the
same state. -/
theorem c7_unknown_action (mint : Nat → String) (st : V2.DState)
    (a : V2.Action) (rest : List V2.Action)
    (h : pyUpper a.type ∉ V2.knownActionTypes) :
    V2.dispatchOne mint st a = (st, "Unknown action: " ++ pyUpper a.type) ∧
    V2.dispatchActions mint (a :: rest) st =
      ((V2.dispatchActions mint rest st).1,
       ("Unknown action: " ++ pyUpper a.type) ::
         (V2.dispatchActions mint rest st).2) := by
  simp only [V2.knownActionTypes, List.mem_cons, List.not_mem_nil, or_false,
    not_or] at h
  obtain ⟨h1, h2, h3, h4, h5, h6, h7, h8⟩ := h
  have hone : V2.dispatchOne mint st a =
      (st, "Unknown action: " ++ pyUpper a.type) := by
    unfold V2.dispatchOne
    rw [if_neg h1, if_neg h2]
    unfold V2.toolMapLookup
    rw [if_neg h3, if_neg h4, if_neg h5, if_neg h6, if_neg h7, if_neg h8]
  refine ⟨hone, ?_⟩
  rw [V2.dispatchActions, hone]

/-- Claim C7 witness: a concrete unknown action type inside a batch followed
by a known action. -/
theorem c7_unknown_action_witness :
    V2.dispatchOne V2.mintC ⟨[], 0⟩ { type := "DELETEPRODUCT" } =
      (⟨[], 0⟩, "Unknown action: " ++ pyUpper "DELETEPRODUCT") :=
  (c7_unknown_action V2.mintC ⟨[], 0⟩ { type := "DELETEPRODUCT" }
    [V2.mkProduct "Widget"] (by decide)).1

/-- Claim C8 counterexample: a classifier output that is valid JSON but not a
JSON object, namely the parse of the text consisting of an empty array,
reaches the dispatcher and raises an AttributeError when the dispatcher calls
.get of actions on it, so a classifier output can make the turn end in a
raised error. -/
theorem c8_counterexample :
    V2.getActions (V2.interpretData (some (V2.JValue.arr []))) =
      Except.error "AttributeError: no attribute get" := rfl

/-- Claim C8 amended: a model response whose text fails JSON parsing is
degraded to the object with an empty actions list, the dispatcher extracts no
actions from it, and the turn completes without error with the echo result;
the no-fatal-error guarantee holds for parse failures but not for every
classifier output. -/
theorem c8_parse_failure_degrades (mint : Nat → String) (ui : String)
    (pidsOpt : Option (List (String × String))) (ctr : Nat) :
    V2.getActions (V2.interpretData none) = Except.ok [] ∧
    V2.dispatcher mint ui pidsOpt ctr [] =
      (⟨pidsOpt.getD [], ctr⟩, "You said: " ++ ui) := by
  refine ⟨rfl, ?_⟩
  unfold V2.dispatcher V2.dispatchActions
  simp [joinWith]

namespace V2

lemma dispatchOne_mem (mint : Nat → String) (st : DState) (a : Action)
    {q : String × String}
    (h : q ∈ (dispatchOne mint st a).1.product_ids) :
    q ∈ st.product_ids ∨ q.2 = mint st.counter := by
  unfold dispatchOne at h
  by_cases h1 : pyUpper a.type = "CREATEPRICELIST"
  · rw [if_pos h1] at h; left; exact h
  · rw [if_neg h1] at h
    by_cases h2 : pyUpper a.type = "CREATEPRODUCT"
    · rw [if_pos h2] at h
      rcases hcp : create_product a.name (mint st.counter) with msg | ⟨pid, nm⟩
      · rw [hcp] at h; left; exact h
      · rw [hcp] at h
        unfold create_product at hcp
        by_cases hn : a.name = ""
        · rw [if_pos hn] at hcp; exact absurd hcp (by simp)
        · rw [if_neg hn] at hcp
          have hpid : pid = mint st.counter := by
            injection hcp with hp hnm; exact hp.symm
          rcases mem_dictInsert h with hm | hm
          · left; exact hm
          · right; rw [hm, hpid]
    · rw [if_neg h2] at h
      rcases htm : toolMapLookup (pyUpper a.type) with _ | f <;>
        rw [htm] at h <;> exact Or.inl h

lemma dispatchActions_mem (mint : Nat → String) (acts : List Action) :
    ∀ (st : DState) (q : String × String),
      q ∈ (dispatchActions mint acts st).1.product_ids →
      q ∈ st.product_ids ∨ ∃ i, q.2 = mint i := by
  induction acts with
  | nil => intro st q h; left; exact h
  | cons a rest ih =>
      intro st q h
      rw [dispatchActions] at h
      rcases ih (dispatchOne mint st a).1 q h with h1 | h1
      · rcases dispatchOne_mem mint st a h1 with h2 | h2
        · left; exact h2
        · right; exact ⟨st.counter, h2⟩
      · right; exact h1

lemma dispatchOne_keyMono (mint : Nat → String) (st : DState) (a : Action)
    {k0 : String} (h : ∃ q ∈ st.product_ids, q.1 = k0) :
    ∃ q ∈ (dispatchOne mint st a).1.product_ids, q.1 = k0 := by
  unfold dispatchOne
  by_cases h1 : pyUpper a.type = "CREATEPRICELIST"
  · rw [if_pos h1]; exact h
  · rw [if_neg h1]
    by_cases h2 : pyUpper a.type = "CREATEPRODUCT"
    · rw [if_pos h2]
      rcases hcp : create_product a.name (mint st.counter) with msg | ⟨pid, nm⟩
      · exact h
      · exact keys_dictInsert a.name pid h
    · rw [if_neg h2]
      rcases htm : toolMapLookup (pyUpper a.type) with _ | f <;> exact h

lemma dispatchActions_keyMono (mint : Nat → String) (acts : List Action) :
    ∀ (st : DState) (k0 : String), (∃ q ∈ st.product_ids, q.1 = k0) →
      ∃ q ∈ (dispatchActions mint acts st).1.product_ids, q.1 = k0 := by
  induction acts with
  | nil => intro st k0 h; exact h
  | cons a rest ih =>
      intro st k0 h
      rw [dispatchActions]
      exact ih (dispatchOne mint st a).1 k0 (dispatchOne_keyMono mint st a h)

lemma dispatcher_eq (mint : Nat → String) (ui : String)
    (pidsOpt : Option (List (String × String))) (ctr : Nat)
    (acts : List Action) :
    dispatcher mint ui pidsOpt ctr acts =
      ((dispatchActions mint acts ⟨pidsOpt.getD [], ctr⟩).1,
       joinWith "\n"
         (if (dispatchActions mint acts ⟨pidsOpt.getD [], ctr⟩).2 = [] then
            ["You said: " ++ ui]
          else (dispatchActions mint acts ⟨pidsOpt.getD [], ctr⟩).2)) := by
  unfold dispatcher
  rcases hda : dispatchActions mint acts ⟨pidsOpt.getD [], ctr⟩ with ⟨st, results⟩
  rfl

lemma invokeTyped_product_ids (mint : Nat → String) (acts : List Action)
    (s : Session) (ctr : Nat) :
    (invokeTyped mint acts s ctr).1.product_ids =
      some (dispatchActions mint acts
        ⟨s.product_ids.getD [], ctr⟩).1.product_ids := by
  unfold invokeTyped
  rw [dispatcher_eq]

lemma storeFields_product_ids (fields : List String) :
    ∀ (s : Session) (answers : List String),
      (storeFields s fields answers).1.product_ids = s.product_ids := by
  induction fields with
  | nil => intro s answers; rfl
  | cons f fs ih => intro s answers; rw [storeFields]; exact ih _ _

lemma invokeTyped_keyMono (mint : Nat → String) (acts : List Action)
    (s : Session) (ctr : Nat) {k : String}
    (h : ∃ q ∈ s.product_ids.getD [], q.1 = k) :
    ∃ q ∈ (invokeTyped mint acts s ctr).1.product_ids.getD [], q.1 = k := by
  rw [invokeTyped_product_ids]
  exact dispatchActions_keyMono mint acts ⟨s.product_ids.getD [], ctr⟩ k h

lemma innerLoop_cons (mint : Nat → String) (n : Nat) (acts : List Action)
    (oracle : List (List Action)) (answers : List String) (s : Session)
    (ctr : Nat) :
    innerLoop mint (n + 1) (acts :: oracle) answers s ctr =
      if pyStartsWith (invokeTyped mint acts s ctr).2.2 "MISSING_FIELDS:" then
        innerLoop mint n oracle
          (storeFields (invokeTyped mint acts s ctr).1
            (pySplit
              (pyReplace (invokeTyped mint acts s ctr).2.2 "MISSING_FIELDS:" "")
              ',') answers).2
          (storeFields (invokeTyped mint acts s ctr).1
            (pySplit
              (pyReplace (invokeTyped mint acts s ctr).2.2 "MISSING_FIELDS:" "")
              ',') answers).1
          (invokeTyped mint acts s ctr).2.1
      else
        some ((invokeTyped mint acts s ctr).2.2, (invokeTyped mint acts s ctr).1,
          (invokeTyped mint acts s ctr).2.1) := by
  rw [innerLoop]

lemma innerLoop_keyMono (mint : Nat → String) :
    ∀ (fuel : Nat) (oracle : List (List Action)) (answers : List String)
      (s : Session) (ctr : Nat) (res : String) (s1 : Session) (ctr1 : Nat)
      (k : String),
      innerLoop mint fuel oracle answers s ctr = some (res, s1, ctr1) →
      (∃ q ∈ s.product_ids.getD [], q.1 = k) →
      ∃ q ∈ s1.product_ids.getD [], q.1 = k := by
  intro fuel
  induction fuel with
  | zero =>
      intro oracle answers s ctr res s1 ctr1 k hrun hk
      simp [innerLoop] at hrun
  | succ n ih =>
      intro oracle answers s ctr res s1 ctr1 k hrun hk
      cases oracle with
      | nil => simp [innerLoop] at hrun
      | cons acts oracle2 =>
          rw [innerLoop_cons] at hrun
          by_cases hsent :
              pyStartsWith (invokeTyped mint acts s ctr).2.2 "MISSING_FIELDS:" =
                true
          · rw [if_pos hsent] at hrun
            refine ih oracle2 _ _ _ res s1 ctr1 k hrun ?_
            rw [storeFields_product_ids]
            exact invokeTyped_keyMono mint acts s ctr hk
          · rw [if_neg hsent] at hrun
            injection hrun with h1
            simp only [Prod.mk.injEq] at h1
            obtain ⟨-, hs1, -⟩ := h1
            rw [← hs1]
            exact invokeTyped_keyMono mint acts s ctr hk

lemma sessionRun_keyMono (mint : Nat → String) (fuel : Nat) :
    ∀ (turns : List TurnInput) (s : Session) (ctr : Nat) (sE : Session)
      (ctrE : Nat) (k : String),
      sessionRun mint fuel turns s ctr = some (sE, ctrE) →
      (∃ q ∈ s.product_ids.getD [], q.1 = k) →
      ∃ q ∈ sE.product_ids.getD [], q.1 = k := by
  intro turns
  induction turns with
  | nil =>
      intro s ctr sE ctrE k hrun hk
      injection hrun with hpair
      simp only [Prod.mk.injEq] at hpair
      rw [← hpair.1]
      exact hk
  | cons t rest ih =>
      intro s ctr sE ctrE k hrun hk
      rw [sessionRun] at hrun
      rcases hin : innerLoop mint fuel t.oracle t.answers
          { s with user_input := t.user } ctr with _ | ⟨res, s1, ctr1⟩
      · rw [hin] at hrun
        cases hrun
      · rw [hin] at hrun
        have hk1 : ∃ q ∈ s1.product_ids.getD [], q.1 = k :=
          innerLoop_keyMono mint fuel t.oracle t.answers
            { s with user_input := t.user } ctr res s1 ctr1 k hin hk
        exact ih s1 ctr1 sE ctrE k hrun hk1

end V2

/-- Claim C2: the missing-field retry sub-loop is meant to terminate within
the number of missing fields reported in one response, but the answers the
loop stores are written under keys that no later computation reads, so with a
classifier returning the same single-missing-field action on every invocation
the loop re-invokes unboundedly: one field is reported, yet neither two nor
five invocations produce a non-sentinel result. -/
theorem c2_retry_unbounded :
    (V2.invokeTyped V2.mintC [V2.plMissingCurrency] V2.s0 0).2.2 =
      "MISSING_FIELDS:Currency Code" ∧
    V2.innerLoop V2.mintC 2 [[V2.plMissingCurrency], [V2.plMissingCurrency]]
      ["USD", "USD"] V2.s0 0 = none ∧
    V2.innerLoop V2.mintC 5 (List.replicate 5 [V2.plMissingCurrency])
      (List.replicate 5 "USD") V2.s0 0 = none := by
  refine ⟨by decide, by decide, by decide⟩

/-- Claim C9 counterexample: a turn whose repair sub-loop stores the prompted
currency answer and then completes still holds that answer in the session
dict after the final result is produced, so the name-to-identifier table is
not the only state that outlives the turn. -/
theorem c9_counterexample :
    (V2.innerLoop V2.mintC 2 [[V2.plMissingCurrency], []] ["USD"] V2.s0 0).map
        (fun r => r.2.1.extra) =
      some [("currency_code", "USD")] := by decide

/-- Claim C9 amended: the key set of the name-to-identifier table grows
monotonically for the life of the process: across every completed run of the
session loop (and, stepwise, across every dispatched batch) a name present in
the table stays present, entries are never removed; but the table is not the
only state outliving a turn: the session dict also retains the normalized
missing-field answers after the turn completes. -/
theorem c9_table_and_session :
    (∀ (mint : Nat → String) (fuel : Nat) (turns : List V2.TurnInput)
       (s sE : V2.Session) (ctr ctrE : Nat) (k : String),
       V2.sessionRun mint fuel turns s ctr = some (sE, ctrE) →
       (∃ q ∈ s.product_ids.getD [], q.1 = k) →
       ∃ q ∈ sE.product_ids.getD [], q.1 = k)
    ∧ (∀ (mint : Nat → String) (acts : List V2.Action) (st : V2.DState)
         (k0 : String), (∃ q ∈ st.product_ids, q.1 = k0) →
         ∃ q ∈ (V2.dispatchActions mint acts st).1.product_ids, q.1 = k0)
    ∧ (∃ r, V2.innerLoop V2.mintC 2 [[V2.plMissingCurrency], []] ["USD"]
          V2.s0 0 = some r ∧ ("currency_code", "USD") ∈ r.2.1.extra) := by
  refine ⟨fun mint fuel turns s sE ctr ctrE k hrun hk =>
      V2.sessionRun_keyMono mint fuel turns s ctr sE ctrE k hrun hk,
    fun mint acts st k0 h => V2.dispatchActions_keyMono mint acts st k0 h,
    ?_⟩
  refine ⟨("You said: create NA pricelist for Widget at 1000",
    { user_input := "create NA pricelist for Widget at 1000",
      product_ids := some [], extra := [("currency_code", "USD")] }, 0),
    by decide, by decide⟩

/-- Claim C9 amended witness: lifetime key monotonicity applied to a concrete
two-turn session run that creates a product in its first turn. -/
theorem c9_table_and_session_witness :
    ∃ q ∈ [("Gadget", "ID-9"), ("Widget", "ID-0")], q.1 = "Gadget" :=
  c9_table_and_session.1 V2.mintC 1 [V2.turnCreateWidget, V2.turnEcho]
    { user_input := "", product_ids := some [("Gadget", "ID-9")], extra := [] }
    { user_input := "hello",
      product_ids := some [("Gadget", "ID-9"), ("Widget", "ID-0")], extra := [] }
    0 1 "Gadget" (by decide) ⟨("Gadget", "ID-9"), by decide, rfl⟩

/-- Claim C10: a product-creation action with an empty name returns the
sentinel and leaves the table unchanged; every entry of the table after a
batch is either inherited or carries a minted identifier as its value, and
when no minted identifier and no inherited value starts with the sentinel
marker, no table value ever does. -/
theorem c10_table_only_minted :
    (∀ (mint : Nat → String) (st : V2.DState),
       V2.dispatchOne mint st (V2.mkProduct "") =
         (st, "MISSING_FIELDS:Product Name"))
    ∧ (∀ (mint : Nat → String) (acts : List V2.Action) (st : V2.DState)
         (q : String × String),
         q ∈ (V2.dispatchActions mint acts st).1.product_ids →
         q ∈ st.product_ids ∨ ∃ i, q.2 = mint i)
    ∧ (∀ (mint : Nat → String) (acts : List V2.Action) (st : V2.DState),
         (∀ i, pyStartsWith (mint i) "MISSING_FIELDS:" = false) →
         (∀ q ∈ st.product_ids, pyStartsWith q.2 "MISSING_FIELDS:" = false) →
         ∀ q ∈ (V2.dispatchActions mint acts st).1.product_ids,
           pyStartsWith q.2 "MISSING_FIELDS:" = false) := by
  refine ⟨fun mint st => by rw [V2.dispatchOne_product, if_pos rfl],
    fun mint acts st q h => V2.dispatchActions_mem mint acts st q h,
    fun mint acts st hmint hinit q h => ?_⟩
  rcases V2.dispatchActions_mem mint acts st q h with h1 | ⟨i, h1⟩
  · exact hinit q h1
  · rw [h1]; exact hmint i

/-- Claim C10 witness: the invariant applied to a concrete batch that mints
one identifier. -/
theorem c10_table_only_minted_witness :
    ("Widget", "ID-0") ∈ (⟨[], 0⟩ : V2.DState).product_ids ∨
      ∃ i, "ID-0" = V2.mintC i :=
  c10_table_only_minted.2.1 V2.mintC [V2.mkProduct "Widget"] ⟨[], 0⟩
    ("Widget", "ID-0") (by decide)
